import Mathlib

/-!
Verification of the WebGL context lifecycle manager
(`src/backends/webgl/webgl_context_manager.ts`).

The source file contains two iterations of the same module; per the
specification the richer, error-checked variant (the second one, with
`checkWebGLError` calls inside `getContextByVersion`) is canonical and is
embedded here in full.  The earlier variant differs only in
`setContextFactory` (it clears the registry) and in the absence of the
error checks; its `setContextFactory` is embedded in the `Legacy`
namespace.

Modelling choices:
* A `WebGLRenderingContext` handle is opaque to the manager; the manager
  only calls `isContextLost()`, `getError()`, and the fixed state-setting
  methods.  A handle is modelled as a `Ctx` record carrying an identity,
  the answer `isContextLost()` returns, and the code `getError()` returns.
* The module's global mutable state (`contexts`, `contextFactory`,
  `contextCleanup`) is a `GLState` record threaded explicitly; the
  JavaScript object keyed by version is an association list with
  object-style lookup / set / delete operations.
* Every externally observable action (factory invocation, cleanup
  invocation, each GL state call, each `getError` query) is emitted into
  an event trace, so "invoked exactly once" claims become statements
  about traces.
* Exceptions are `Except GLError`; a thrown exception propagates but
  state mutations already performed persist, so every operation returns
  the (possibly mutated) state alongside the result.
* The unbounded recursion of `getContextByVersion` is modelled with a
  fuel parameter; exhausting fuel yields the distinguished
  `GLError.fuelExhausted` marker (a modelling artifact, not a source
  error path).
* The environment (`ENV` flags) and the browser-default factory/cleanup
  from `canvas_util` (external collaborators, not part of this source)
  are parameters collected in `Env`.
-/

set_option maxHeartbeats 1000000

namespace WebGLContextManager

/-- WebGL enum value `gl.NO_ERROR`. -/
def NO_ERROR : Nat := 0

/-- WebGL enum value `gl.INVALID_ENUM`. -/
def INVALID_ENUM : Nat := 1280

/-- WebGL enum value `gl.INVALID_VALUE`. -/
def INVALID_VALUE : Nat := 1281

/-- WebGL enum value `gl.INVALID_OPERATION`. -/
def INVALID_OPERATION : Nat := 1282

/-- WebGL enum value `gl.OUT_OF_MEMORY`. -/
def OUT_OF_MEMORY : Nat := 1285

/-- WebGL enum value `gl.INVALID_FRAMEBUFFER_OPERATION`. -/
def INVALID_FRAMEBUFFER_OPERATION : Nat := 1286

/-- WebGL enum value `gl.CONTEXT_LOST_WEBGL`. -/
def CONTEXT_LOST_WEBGL : Nat := 37442

/-- WebGL capability enum `gl.DEPTH_TEST`. -/
def DEPTH_TEST : Nat := 2929

/-- WebGL capability enum `gl.STENCIL_TEST`. -/
def STENCIL_TEST : Nat := 2960

/-- WebGL capability enum `gl.BLEND`. -/
def BLEND : Nat := 3042

/-- WebGL capability enum `gl.DITHER`. -/
def DITHER : Nat := 3024

/-- WebGL capability enum `gl.POLYGON_OFFSET_FILL`. -/
def POLYGON_OFFSET_FILL : Nat := 32823

/-- WebGL capability enum `gl.SAMPLE_COVERAGE`. -/
def SAMPLE_COVERAGE : Nat := 32928

/-- WebGL capability enum `gl.SCISSOR_TEST`. -/
def SCISSOR_TEST : Nat := 3089

/-- WebGL capability enum `gl.CULL_FACE`. -/
def CULL_FACE : Nat := 2884

/-- WebGL face enum `gl.BACK`. -/
def BACK : Nat := 1029

/-- Model of a `WebGLRenderingContext` handle as the manager observes it:
an identity (JavaScript object identity), the boolean `isContextLost()`
reports on the next query, and the code `getError()` reports. -/
structure Ctx where
  id : Nat
  lost : Bool
  errorCode : Nat
  deriving DecidableEq, Repr

/-- Externally observable actions of the manager, in program order. -/
inductive Event where
  | factoryCall (fid : Nat) (version : Nat)
  | cleanupCall (fid : Nat) (ctxId : Nat)
  | disableCap (ctxId : Nat) (cap : Nat)
  | enableCap (ctxId : Nat) (cap : Nat)
  | cullFace (ctxId : Nat) (mode : Nat)
  | getError (ctxId : Nat)
  deriving DecidableEq, Repr

/-- Errors thrown by the module.  In the source all are `Error`; the
constructors distinguish the throw sites.  `fuelExhausted` is the fuel
marker standing in for unbounded recursion. -/
inductive GLError where
  | configError (msg : String)
  | graphicsError (msg : String)
  | cleanupThrew (msg : String)
  | fuelExhausted
  deriving DecidableEq, Repr

/-- A context factory callback (`(version) => WebGLRenderingContext`),
with an identity `fid` so that invocations can be traced. -/
structure FactoryFn where
  fid : Nat
  create : Nat → Ctx

/-- A context cleanup callback (`(context) => void`), with an identity
`fid` for tracing and a predicate saying on which handles the callback
throws (a user-injected cleanup may throw arbitrarily). -/
structure CleanupFn where
  fid : Nat
  throwsOn : Ctx → Bool

/-- The external environment: the `ENV` flags the module reads and the
browser-default factory/cleanup imported from `canvas_util`
(`createDOMCanvasWebGLRenderingContext`,
`cleanupDOMCanvasWebGLRenderingContext`). -/
structure Env where
  IS_BROWSER : Bool
  DEBUG : Bool
  WEBGL_VERSION : Nat
  domFactory : FactoryFn
  domCleanup : CleanupFn

/-- The module's global mutable state: the registry object `contexts`
and the two policy slots `contextFactory` / `contextCleanup`
(`null` is `none`). -/
structure GLState where
  contexts : List (Nat × Ctx)
  contextFactory : Option FactoryFn
  contextCleanup : Option CleanupFn

/-- JavaScript object read `contexts[version]` / membership test
`version in contexts`: first binding for the key. -/
def ctxLookup : List (Nat × Ctx) → Nat → Option Ctx
  | [], _ => none
  | (k, c) :: rest, version =>
    if k = version then some c else ctxLookup rest version

/-- JavaScript object write `contexts[version] = c`: replace the binding
for the key, or append a new one. -/
def objSet : List (Nat × Ctx) → Nat → Ctx → List (Nat × Ctx)
  | [], version, c => [(version, c)]
  | (k, c0) :: rest, version, c =>
    if k = version then (k, c) :: rest else (k, c0) :: objSet rest version c

/-- JavaScript object delete `delete contexts[version]`: remove the
binding for the key. -/
def ctxErase : List (Nat × Ctx) → Nat → List (Nat × Ctx)
  | [], _ => []
  | (k, c0) :: rest, version =>
    if k = version then ctxErase rest version
    else (k, c0) :: ctxErase rest version

/-- Lines 213-220 of the canonical variant: the factory that
`getContextByVersion` will use, after the null check installs the
browser default (`createDOMCanvasWebGLRenderingContext`) when running in
the browser.  Returns `none` exactly when the source throws the
configuration error. -/
def resolveFactory (env : Env) : Option FactoryFn → Option FactoryFn
  | some f => some f
  | none => if env.IS_BROWSER then some env.domFactory else none

/-- Source `getWebGLErrorMessage(gl, status)` (lines 153-173): switch on
the status code.  The `gl` argument supplies only the enum constants,
which are the fixed WebGL values modelled as module constants above. -/
def getWebGLErrorMessage (gl : Ctx) (status : Nat) : String :=
  if status = NO_ERROR then "NO_ERROR"
  else if status = INVALID_ENUM then "INVALID_ENUM"
  else if status = INVALID_VALUE then "INVALID_VALUE"
  else if status = INVALID_OPERATION then "INVALID_OPERATION"
  else if status = INVALID_FRAMEBUFFER_OPERATION then
    "INVALID_FRAMEBUFFER_OPERATION"
  else if status = OUT_OF_MEMORY then "OUT_OF_MEMORY"
  else if status = CONTEXT_LOST_WEBGL then "CONTEXT_LOST_WEBGL"
  else "Unknown error code " ++ toString status

/-- Source `checkWebGLError(gl)` (lines 146-151): query `getError()`;
throw when it is not `NO_ERROR`. -/
def checkWebGLError (gl : Ctx) : Except GLError Unit × List Event :=
  let error := gl.errorCode
  if error ≠ NO_ERROR then
    (Except.error
        (GLError.graphicsError ("WebGL Error: " ++ getWebGLErrorMessage gl error)),
      [Event.getError gl.id])
  else (Except.ok (), [Event.getError gl.id])

/-- Source `callAndCheck(gl, debugMode, func)` (lines 137-144): run the
operation; in debug mode follow it with `checkWebGLError`; return the
operation's value.  The operation may itself throw, in which case the
exception propagates before any check. -/
def callAndCheck {α : Type} (gl : Ctx) (debugMode : Bool)
    (func : Unit → Except GLError α × List Event) :
    Except GLError α × List Event :=
  match func () with
  | (Except.error e, ev1) => (Except.error e, ev1)
  | (Except.ok returnValue, ev1) =>
    if debugMode then
      match checkWebGLError gl with
      | (Except.error e, ev2) => (Except.error e, ev1 ++ ev2)
      | (Except.ok _, ev2) => (Except.ok returnValue, ev1 ++ ev2)
    else (Except.ok returnValue, ev1)

/-- Source `bootstrapWebGLContext(gl)` of the canonical variant
(lines 254-266): the first state call (`disable(DEPTH_TEST)`) goes
through `callAndCheck` with the `DEBUG` flag; the remaining eight calls
are issued bare, in the fixed source order. -/
def bootstrapWebGLContext (env : Env) (gl : Ctx) :
    Except GLError Unit × List Event :=
  match callAndCheck gl env.DEBUG
      (fun _ => (Except.ok (), [Event.disableCap gl.id DEPTH_TEST])) with
  | (Except.error e, ev1) => (Except.error e, ev1)
  | (Except.ok _, ev1) =>
    (Except.ok (),
      ev1 ++
        [Event.disableCap gl.id STENCIL_TEST, Event.disableCap gl.id BLEND,
          Event.disableCap gl.id DITHER,
          Event.disableCap gl.id POLYGON_OFFSET_FILL,
          Event.disableCap gl.id SAMPLE_COVERAGE,
          Event.enableCap gl.id SCISSOR_TEST,
          Event.enableCap gl.id CULL_FACE, Event.cullFace gl.id BACK])

/-- Source `setContextFactory(factory)` of the canonical variant
(lines 184-187): install the factory; nothing else. -/
def setContextFactory (s : GLState) (factory : FactoryFn) : GLState :=
  { s with contextFactory := some factory }

/-- Source `setContextCleanup(cleanup)` (lines 194-197). -/
def setContextCleanup (s : GLState) (cleanup : CleanupFn) : GLState :=
  { s with contextCleanup := some cleanup }

/-- Source `disposeWebGLContext(version)` (lines 239-252): when an entry
exists, lazily resolve the default browser cleanup, invoke the cleanup
when one is available, then `delete contexts[version]`.  When the
cleanup throws, the exception propagates and the `delete` statement is
never reached. -/
def disposeWebGLContext (env : Env) (s : GLState) (version : Nat) :
    Except GLError Unit × GLState × List Event :=
  match ctxLookup s.contexts version with
  | none => (Except.ok (), s, [])
  | some ctx =>
    let s1 : GLState :=
      match s.contextCleanup with
      | none =>
        if env.IS_BROWSER then { s with contextCleanup := some env.domCleanup }
        else s
      | some _ => s
    match s1.contextCleanup with
    | some cleanup =>
      if cleanup.throwsOn ctx then
        (Except.error (GLError.cleanupThrew ("cleanup callback threw")), s1,
          [Event.cleanupCall cleanup.fid ctx.id])
      else
        (Except.ok (), { s1 with contexts := ctxErase s1.contexts version },
          [Event.cleanupCall cleanup.fid ctx.id])
    | none =>
      (Except.ok (), { s1 with contexts := ctxErase s1.contexts version }, [])

/-- Source `getContextByVersion(version)` of the canonical variant
(lines 211-237), with fuel for the recursive retry.  Steps: resolve or
install the factory (throwing the configuration error when impossible);
on a registry miss construct, bootstrap and error-check the new handle,
caching it; then take the cached handle, and when it reports itself
lost, error-check, dispose, and recurse; otherwise error-check and
return it. -/
def getContextByVersion (env : Env) :
    Nat → GLState → Nat → Except GLError Ctx × GLState × List Event
  | 0, s, _version => (Except.error GLError.fuelExhausted, s, [])
  | fuel + 1, s, version =>
    match resolveFactory env s.contextFactory with
    | none =>
      (Except.error
          (GLError.configError
            ("Default WebGLRenderingContext factory was not set!")),
        s, [])
    | some factory =>
      let s1 : GLState := { s with contextFactory := some factory }
      let cons : Except GLError Ctx × GLState × List Event :=
        match ctxLookup s1.contexts version with
        | some gl => (Except.ok gl, s1, [])
        | none =>
          let newCtx := factory.create version
          let s2 : GLState :=
            { s1 with contexts := objSet s1.contexts version newCtx }
          match bootstrapWebGLContext env newCtx with
          | (Except.error e, evB) =>
            (Except.error e, s2, Event.factoryCall factory.fid version :: evB)
          | (Except.ok _, evB) =>
            match checkWebGLError newCtx with
            | (Except.error e, evC) =>
              (Except.error e, s2,
                Event.factoryCall factory.fid version :: (evB ++ evC))
            | (Except.ok _, evC) =>
              (Except.ok newCtx, s2,
                Event.factoryCall factory.fid version :: (evB ++ evC))
      match cons with
      | (Except.error e, s2, ev) => (Except.error e, s2, ev)
      | (Except.ok gl, s2, ev) =>
        if gl.lost then
          match checkWebGLError gl with
          | (Except.error e, evC) => (Except.error e, s2, ev ++ evC)
          | (Except.ok _, evC) =>
            match disposeWebGLContext env s2 version with
            | (Except.error e, s3, evD) =>
              (Except.error e, s3, ev ++ evC ++ evD)
            | (Except.ok _, s3, evD) =>
              match getContextByVersion env fuel s3 version with
              | (r, s4, evR) => (r, s4, ev ++ evC ++ evD ++ evR)
        else
          match checkWebGLError gl with
          | (Except.error e, evC) => (Except.error e, s2, ev ++ evC)
          | (Except.ok _, evC) => (Except.ok gl, s2, ev ++ evC)

/-- Source `getActiveContext()` (lines 203-205): delegate to the version
from the `WEBGL_VERSION` environment flag. -/
def getActiveContext (env : Env) (fuel : Nat) (s : GLState) :
    Except GLError Ctx × GLState × List Event :=
  getContextByVersion env fuel s env.WEBGL_VERSION

namespace Legacy

/-- Source `setContextFactory(factory)` of the earlier variant
(lines 30-39): install the factory and clear the registry object
(`contexts = {}`; the loop before it only logs each key to the console,
which mutates no state). -/
def setContextFactory (s : GLState) (factory : FactoryFn) : GLState :=
  { s with contextFactory := some factory, contexts := [] }

end Legacy

/-- Recognizer for cleanup-invocation events. -/
def isCleanupCall : Event → Bool
  | Event.cleanupCall _ _ => true
  | _ => false

/-- Recognizer for factory-invocation events. -/
def isFactoryCall : Event → Bool
  | Event.factoryCall _ _ => true
  | _ => false

/-- Recognizer for `getError` query events. -/
def isGetErrorQuery : Event → Bool
  | Event.getError _ => true
  | _ => false

/-- Number of cleanup invocations recorded in a trace. -/
def countCleanupCalls : List Event → Nat
  | [] => 0
  | e :: tr => (if isCleanupCall e then 1 else 0) + countCleanupCalls tr

/-- Number of factory invocations recorded in a trace. -/
def countFactoryCalls : List Event → Nat
  | [] => 0
  | e :: tr => (if isFactoryCall e then 1 else 0) + countFactoryCalls tr

/-- Number of `getError` queries recorded in a trace. -/
def countGetErrorQueries : List Event → Nat
  | [] => 0
  | e :: tr => (if isGetErrorQuery e then 1 else 0) + countGetErrorQueries tr

/-- Cleanup-invocation counting distributes over trace concatenation. -/
theorem countCleanupCalls_append (a b : List Event) :
    countCleanupCalls (a ++ b) = countCleanupCalls a + countCleanupCalls b := by
  induction a with
  | nil => simp [countCleanupCalls]
  | cons e tr ih => simp [countCleanupCalls, ih, Nat.add_assoc]

/-- Factory-invocation counting distributes over trace concatenation. -/
theorem countFactoryCalls_append (a b : List Event) :
    countFactoryCalls (a ++ b) = countFactoryCalls a + countFactoryCalls b := by
  induction a with
  | nil => simp [countFactoryCalls]
  | cons e tr ih => simp [countFactoryCalls, ih, Nat.add_assoc]

/-- The trace `bootstrapWebGLContext` emits on a handle with no pending
error: the nine state calls in source order, with the `getError` query
after the first call exactly when the debug flag is set. -/
def bootTrace (dbg : Bool) (i : Nat) : List Event :=
  (if dbg then [Event.disableCap i DEPTH_TEST, Event.getError i]
   else [Event.disableCap i DEPTH_TEST]) ++
    [Event.disableCap i STENCIL_TEST, Event.disableCap i BLEND,
      Event.disableCap i DITHER, Event.disableCap i POLYGON_OFFSET_FILL,
      Event.disableCap i SAMPLE_COVERAGE, Event.enableCap i SCISSOR_TEST,
      Event.enableCap i CULL_FACE, Event.cullFace i BACK]

/-- On a handle whose pending error code is `NO_ERROR`, bootstrap
succeeds and emits `bootTrace`. -/
theorem bootstrap_ok (env : Env) (gl : Ctx) (herr : gl.errorCode = NO_ERROR) :
    bootstrapWebGLContext env gl = (Except.ok (), bootTrace env.DEBUG gl.id) := by
  cases hdbg : env.DEBUG <;>
    simp [bootstrapWebGLContext, callAndCheck, checkWebGLError, herr, bootTrace, hdbg]

/-- With the debug flag off, bootstrap performs no error check at all and
succeeds on every handle. -/
theorem bootstrap_nodebug (env : Env) (gl : Ctx) (hdbg : env.DEBUG = false) :
    bootstrapWebGLContext env gl = (Except.ok (), bootTrace false gl.id) := by
  simp [bootstrapWebGLContext, callAndCheck, bootTrace, hdbg]

/-- The bootstrap trace contains no cleanup invocation. -/
theorem countCleanupCalls_bootTrace (dbg : Bool) (i : Nat) :
    countCleanupCalls (bootTrace dbg i) = 0 := by
  cases dbg <;> simp [bootTrace, countCleanupCalls, isCleanupCall]

/-- The bootstrap trace contains no factory invocation. -/
theorem countFactoryCalls_bootTrace (dbg : Bool) (i : Nat) :
    countFactoryCalls (bootTrace dbg i) = 0 := by
  cases dbg <;> simp [bootTrace, countFactoryCalls, isFactoryCall]

/-- A passing error check. -/
theorem checkWebGLError_ok (gl : Ctx) (herr : gl.errorCode = NO_ERROR) :
    checkWebGLError gl = (Except.ok (), [Event.getError gl.id]) := by
  simp [checkWebGLError, herr]

/-- A failing error check throws the formatted graphics error. -/
theorem checkWebGLError_throw (gl : Ctx) (herr : gl.errorCode ≠ NO_ERROR) :
    checkWebGLError gl =
      (Except.error
          (GLError.graphicsError
            ("WebGL Error: " ++ getWebGLErrorMessage gl gl.errorCode)),
        [Event.getError gl.id]) := by
  simp [checkWebGLError, herr]

/-- Looking a key up right after setting it yields the new handle. -/
theorem ctxLookup_objSet_self (m : List (Nat × Ctx)) (v : Nat) (c : Ctx) :
    ctxLookup (objSet m v c) v = some c := by
  induction m with
  | nil => simp [objSet, ctxLookup]
  | cons p rest ih =>
    obtain ⟨k, c0⟩ := p
    by_cases hk : k = v <;> simp [objSet, ctxLookup, hk, ih]

/-- Setting one key leaves lookups of other keys unchanged. -/
theorem ctxLookup_objSet_ne (m : List (Nat × Ctx)) (v w : Nat) (c : Ctx)
    (hne : w ≠ v) : ctxLookup (objSet m v c) w = ctxLookup m w := by
  induction m with
  | nil => simp [objSet, ctxLookup, hne.symm]
  | cons p rest ih =>
    obtain ⟨k, c0⟩ := p
    by_cases hk : k = v
    · subst hk
      simp [objSet, ctxLookup, Ne.symm hne]
    · by_cases hw : k = w <;> simp [objSet, ctxLookup, hk, hw, ih, hne]

/-- Looking a key up right after deleting it yields nothing. -/
theorem ctxLookup_erase_self (m : List (Nat × Ctx)) (v : Nat) :
    ctxLookup (ctxErase m v) v = none := by
  induction m with
  | nil => simp [ctxErase, ctxLookup]
  | cons p rest ih =>
    obtain ⟨k, c0⟩ := p
    by_cases hk : k = v <;> simp [ctxErase, ctxLookup, hk, ih]

/-- Deleting one key leaves lookups of other keys unchanged. -/
theorem ctxLookup_erase_ne (m : List (Nat × Ctx)) (v w : Nat)
    (hne : w ≠ v) : ctxLookup (ctxErase m v) w = ctxLookup m w := by
  induction m with
  | nil => simp [ctxErase, ctxLookup]
  | cons p rest ih =>
    obtain ⟨k, c0⟩ := p
    by_cases hk : k = v
    · subst hk
      simp [ctxErase, ctxLookup, Ne.symm hne, ih]
    · by_cases hw : k = w <;> simp [ctxErase, ctxLookup, hk, hw, ih, hne]

/-- Registry-miss path of `getContextByVersion` (lines 222-227 then
229-236): with an installed factory whose handle for `version` is
healthy, the call constructs, bootstraps, error-checks, caches, and
returns the fresh handle; the trace is one factory invocation, the
bootstrap trace, the post-construction check and the final check. -/
theorem get_miss (env : Env) (fuel : Nat) (s : GLState) (v : Nat) (f : FactoryFn)
    (hnone : ctxLookup s.contexts v = none)
    (hf : s.contextFactory = some f)
    (herr : (f.create v).errorCode = NO_ERROR)
    (hlost : (f.create v).lost = false) :
    getContextByVersion env (fuel + 1) s v =
      (Except.ok (f.create v),
        { s with contexts := objSet s.contexts v (f.create v) },
        Event.factoryCall f.fid v ::
          (bootTrace env.DEBUG (f.create v).id ++
            [Event.getError (f.create v).id, Event.getError (f.create v).id])) := by
  obtain ⟨cs, cf, cc⟩ := s
  simp only [GLState.contexts] at hnone
  simp only [GLState.contextFactory] at hf
  subst hf
  simp [getContextByVersion, resolveFactory, hnone,
    bootstrap_ok env _ herr, checkWebGLError, herr, hlost]

/-- Registry-hit path of `getContextByVersion` on a healthy cached
handle (lines 229, 235-236): the cached handle is returned unchanged,
the state is untouched, and the only action is the final error check. -/
theorem get_hit (env : Env) (fuel : Nat) (s : GLState) (v : Nat) (c : Ctx)
    (f : FactoryFn)
    (hc : ctxLookup s.contexts v = some c)
    (hf : s.contextFactory = some f)
    (hlost : c.lost = false)
    (herr : c.errorCode = NO_ERROR) :
    getContextByVersion env (fuel + 1) s v = (Except.ok c, s, [Event.getError c.id]) := by
  obtain ⟨cs, cf, cc⟩ := s
  simp only [GLState.contexts] at hc
  simp only [GLState.contextFactory] at hf
  subst hf
  simp [getContextByVersion, resolveFactory, hc, hlost, checkWebGLError, herr]

/-- Registry-hit path on a lost cached handle with no pending error
(lines 229-233): the check passes, the entry is disposed through the
installed cleanup, and the call recurses on the state with the entry
deleted. -/
theorem get_lost_step (env : Env) (fuel : Nat) (s : GLState) (v : Nat)
    (c : Ctx) (f : FactoryFn) (cl : CleanupFn)
    (hc : ctxLookup s.contexts v = some c)
    (hf : s.contextFactory = some f)
    (hlost : c.lost = true)
    (herr : c.errorCode = NO_ERROR)
    (hcl : s.contextCleanup = some cl)
    (hthrow : cl.throwsOn c = false) :
    getContextByVersion env (fuel + 1) s v =
      ((getContextByVersion env fuel
          { s with contexts := ctxErase s.contexts v } v).1,
        (getContextByVersion env fuel
          { s with contexts := ctxErase s.contexts v } v).2.1,
        Event.getError c.id :: Event.cleanupCall cl.fid c.id ::
          (getContextByVersion env fuel
            { s with contexts := ctxErase s.contexts v } v).2.2) := by
  obtain ⟨cs, cf, cc⟩ := s
  simp only [GLState.contexts] at hc
  simp only [GLState.contextFactory] at hf
  simp only [GLState.contextCleanup] at hcl
  subst hf
  subst hcl
  rcases hR : getContextByVersion env fuel
      { contexts := ctxErase cs v, contextFactory := some f,
        contextCleanup := some cl } v with ⟨r, s4, evR⟩
  simp [getContextByVersion, resolveFactory, hc, hlost, checkWebGLError, herr,
    disposeWebGLContext, hthrow, hR]

/-- Disposal never changes the factory slot. -/
theorem dispose_contextFactory (env : Env) (s : GLState) (v : Nat) :
    (disposeWebGLContext env s v).2.1.contextFactory = s.contextFactory := by
  obtain ⟨cs, cf, cc⟩ := s
  cases hlk : ctxLookup cs v with
  | none => simp [disposeWebGLContext, hlk]
  | some c =>
    cases cc with
    | none =>
      cases hb : env.IS_BROWSER <;>
        by_cases ht : env.domCleanup.throwsOn c <;>
          simp [disposeWebGLContext, hlk, hb, ht]
    | some cl =>
      by_cases ht : cl.throwsOn c <;> simp [disposeWebGLContext, hlk, ht]

/-- When disposal returns normally, the entry for the version is gone
from the registry. -/
theorem dispose_ok_lookup (env : Env) (s : GLState) (v : Nat)
    (s2 : GLState) (ev : List Event)
    (h : disposeWebGLContext env s v = (Except.ok (), s2, ev)) :
    ctxLookup s2.contexts v = none := by
  obtain ⟨cs, cf, cc⟩ := s
  cases hlk : ctxLookup cs v with
  | none =>
    simp [disposeWebGLContext, hlk] at h
    simp [← h.1, hlk]
  | some c =>
    cases cc with
    | none =>
      cases hb : env.IS_BROWSER <;>
        by_cases ht : env.domCleanup.throwsOn c <;>
          simp [disposeWebGLContext, hlk, hb, ht] at h <;>
            simp [← h.1, ctxLookup_erase_self]
    | some cl =>
      by_cases ht : cl.throwsOn c <;> simp [disposeWebGLContext, hlk, ht] at h
      simp [← h.1, ctxLookup_erase_self]

/-- The only exception disposal can raise is a throwing cleanup
callback. -/
theorem dispose_error_kind (env : Env) (s : GLState) (v : Nat)
    (e : GLError) (s2 : GLState) (ev : List Event)
    (h : disposeWebGLContext env s v = (Except.error e, s2, ev)) :
    e = GLError.cleanupThrew ("cleanup callback threw") := by
  obtain ⟨cs, cf, cc⟩ := s
  cases hlk : ctxLookup cs v with
  | none => simp [disposeWebGLContext, hlk] at h
  | some c =>
    cases cc with
    | none =>
      cases hb : env.IS_BROWSER <;>
        by_cases ht : env.domCleanup.throwsOn c <;>
          simp [disposeWebGLContext, hlk, hb, ht] at h
      exact h.1.symm
    | some cl =>
      by_cases ht : cl.throwsOn c <;> simp [disposeWebGLContext, hlk, ht] at h
      exact h.1.symm

/-- The only exception an error check can raise is the formatted
graphics error. -/
theorem checkWebGLError_error_kind (gl : Ctx) (e : GLError) (ev : List Event)
    (h : checkWebGLError gl = (Except.error e, ev)) :
    e = GLError.graphicsError
      ("WebGL Error: " ++ getWebGLErrorMessage gl gl.errorCode) := by
  by_cases he : gl.errorCode = NO_ERROR <;> simp [checkWebGLError, he] at h
  exact h.1.symm

/-- The only exception bootstrap can raise is a graphics error from its
debug-mode check. -/
theorem bootstrap_error_kind (env : Env) (gl : Ctx) (e : GLError)
    (ev : List Event)
    (h : bootstrapWebGLContext env gl = (Except.error e, ev)) :
    e = GLError.graphicsError
      ("WebGL Error: " ++ getWebGLErrorMessage gl gl.errorCode) := by
  by_cases hdbg : env.DEBUG
  · by_cases he : gl.errorCode = NO_ERROR <;>
      simp [bootstrapWebGLContext, callAndCheck, checkWebGLError, hdbg, he] at h
    exact h.1.symm
  · rw [bootstrap_nodebug env gl (by simpa using hdbg)] at h
    simp at h

/-- A benign environment for concrete instantiations: not a browser,
debug off, healthy browser defaults. -/
def wEnv : Env :=
  { IS_BROWSER := false, DEBUG := false, WEBGL_VERSION := 1,
    domFactory :=
      { fid := 0, create := fun v => { id := v, lost := false, errorCode := 0 } },
    domCleanup := { fid := 0, throwsOn := fun _ => false } }

/-- The benign environment with the debug flag raised. -/
def dbgEnv : Env := { wEnv with DEBUG := true }

/-- A cached handle that reports itself lost on the next access, with no
pending error code. -/
def staleCtx : Ctx := { id := 10, lost := true, errorCode := 0 }

/-- A factory whose handles are healthy and tagged by version. -/
def freshFactory : FactoryFn :=
  { fid := 5,
    create := fun v => { id := 100 + v, lost := false, errorCode := 0 } }

/-- An injected cleanup that never throws. -/
def injCleanup : CleanupFn := { fid := 7, throwsOn := fun _ => false }

/-- A state caching the stale handle for version 1, with the healthy
factory and the benign cleanup installed. -/
def staleState : GLState :=
  { contexts := [(1, staleCtx)], contextFactory := some freshFactory,
    contextCleanup := some injCleanup }

/-- Claim C1: with a cached handle for `v` that reports itself lost on
the next access (and carries no pending error), an installed cleanup
that does not throw on it, and an installed factory whose fresh handle
for `v` is healthy, `getContextByVersion v` invokes the cleanup exactly
once, then the factory exactly once, returns the fresh non-lost handle,
and leaves exactly the fresh entry for `v` in the registry — the stale
handle is never disposed twice and no stale entry is leaked. -/
theorem C1_lost_recovery (env : Env) (fuel : Nat) (s : GLState) (v : Nat)
    (c : Ctx) (f : FactoryFn) (cl : CleanupFn)
    (hc : ctxLookup s.contexts v = some c)
    (hlost : c.lost = true)
    (herr : c.errorCode = NO_ERROR)
    (hf : s.contextFactory = some f)
    (hcl : s.contextCleanup = some cl)
    (hthrow : cl.throwsOn c = false)
    (hfl : (f.create v).lost = false)
    (hfe : (f.create v).errorCode = NO_ERROR) :
    (getContextByVersion env (fuel + 2) s v).1 = Except.ok (f.create v) ∧
    (f.create v).lost = false ∧
    countCleanupCalls (getContextByVersion env (fuel + 2) s v).2.2 = 1 ∧
    countFactoryCalls (getContextByVersion env (fuel + 2) s v).2.2 = 1 ∧
    ctxLookup (getContextByVersion env (fuel + 2) s v).2.1.contexts v =
      some (f.create v) := by
  have hstep := get_lost_step env (fuel + 1) s v c f cl hc hf hlost herr hcl hthrow
  have hmiss := get_miss env fuel { s with contexts := ctxErase s.contexts v } v f
      (by simp [ctxLookup_erase_self]) (by simp [hf]) hfe hfl
  have h2 : fuel + 2 = fuel + 1 + 1 := rfl
  rw [h2, hstep, hmiss]
  refine ⟨by simp, hfl, ?_, ?_, by simp [ctxLookup_objSet_self]⟩
  · simp [countCleanupCalls, isCleanupCall, countCleanupCalls_append,
      countCleanupCalls_bootTrace]
  · simp [countFactoryCalls, isFactoryCall, countFactoryCalls_append,
      countFactoryCalls_bootTrace]

/-- Claim C1 witness: the lost-recovery scenario run on a concrete
state (stale handle for version 1, healthy factory, benign cleanup). -/
theorem C1_lost_recovery_witness :
    ctxLookup staleState.contexts 1 = some staleCtx ∧
    staleCtx.lost = true ∧
    staleCtx.errorCode = NO_ERROR ∧
    staleState.contextFactory = some freshFactory ∧
    staleState.contextCleanup = some injCleanup ∧
    injCleanup.throwsOn staleCtx = false ∧
    (freshFactory.create 1).lost = false ∧
    (freshFactory.create 1).errorCode = NO_ERROR ∧
    ((getContextByVersion wEnv 2 staleState 1).1 =
        Except.ok (freshFactory.create 1) ∧
      (freshFactory.create 1).lost = false ∧
      countCleanupCalls (getContextByVersion wEnv 2 staleState 1).2.2 = 1 ∧
      countFactoryCalls (getContextByVersion wEnv 2 staleState 1).2.2 = 1 ∧
      ctxLookup (getContextByVersion wEnv 2 staleState 1).2.1.contexts 1 =
        some (freshFactory.create 1)) :=
  ⟨rfl, rfl, rfl, rfl, rfl, rfl, rfl, rfl,
    C1_lost_recovery wEnv 0 staleState 1 staleCtx freshFactory injCleanup
      rfl rfl rfl rfl rfl rfl rfl rfl⟩

/-- A cleanup callback that always throws, and a state caching a handle
for version 1 with that cleanup installed. -/
def throwingCleanup : CleanupFn := { fid := 9, throwsOn := fun _ => true }

/-- Cached handle used in the disposal scenarios. -/
def c6ctx : Ctx := { id := 4, lost := true, errorCode := 0 }

/-- State whose installed cleanup throws on every handle. -/
def c6state : GLState :=
  { contexts := [(1, c6ctx)], contextFactory := some freshFactory,
    contextCleanup := some throwingCleanup }

/-- Same state but with the benign cleanup installed. -/
def c6stateOk : GLState := { c6state with contextCleanup := some injCleanup }

/-- Claim C6, code behavior at the failing input: when the installed
cleanup throws, `disposeWebGLContext` propagates the exception and the
registry entry is NOT removed (the `delete` statement is unreachable),
contradicting the claimed unconditional removal; when the cleanup
returns normally the entry is removed. -/
theorem C6_cleanup_throw_behavior :
    (disposeWebGLContext wEnv c6state 1).1 =
      Except.error (GLError.cleanupThrew ("cleanup callback threw")) ∧
    ctxLookup (disposeWebGLContext wEnv c6state 1).2.1.contexts 1 = some c6ctx ∧
    (disposeWebGLContext wEnv c6state 1).2.2 = [Event.cleanupCall 9 4] ∧
    (disposeWebGLContext wEnv c6stateOk 1).1 = Except.ok () ∧
    ctxLookup (disposeWebGLContext wEnv c6stateOk 1).2.1.contexts 1 = none :=
  ⟨rfl, rfl, rfl, rfl, rfl⟩

/-- Claim C7 counterexample: with debug mode enabled and a healthy
handle, the canonical bootstrap emits the nine state calls but exactly
ONE error check (after the first call only), refuting the claim that
every state-setting call is immediately followed by an error check. -/
theorem C7_single_debug_check_counterexample :
    (bootstrapWebGLContext dbgEnv { id := 1, lost := false, errorCode := 0 }).2 =
      [Event.disableCap 1 DEPTH_TEST, Event.getError 1,
        Event.disableCap 1 STENCIL_TEST, Event.disableCap 1 BLEND,
        Event.disableCap 1 DITHER, Event.disableCap 1 POLYGON_OFFSET_FILL,
        Event.disableCap 1 SAMPLE_COVERAGE, Event.enableCap 1 SCISSOR_TEST,
        Event.enableCap 1 CULL_FACE, Event.cullFace 1 BACK] ∧
    countGetErrorQueries
      (bootstrapWebGLContext dbgEnv { id := 1, lost := false, errorCode := 0 }).2 = 1 :=
  ⟨rfl, rfl⟩

/-- Claim C7 as amended: bootstrap issues the nine state calls in the
fixed source order; in debug mode only the FIRST call (disable depth
test) is followed by an error check, which throws immediately on a
pending error, and in non-debug mode no check at all is performed. -/
theorem C7_bootstrap_amended (env : Env) (gl glE : Ctx)
    (herr : gl.errorCode = NO_ERROR)
    (herrE : glE.errorCode ≠ NO_ERROR) :
    bootstrapWebGLContext env gl = (Except.ok (), bootTrace env.DEBUG gl.id) ∧
    countGetErrorQueries (bootTrace true gl.id) = 1 ∧
    countGetErrorQueries (bootTrace false gl.id) = 0 ∧
    (env.DEBUG = true →
      bootstrapWebGLContext env glE =
        (Except.error
            (GLError.graphicsError
              ("WebGL Error: " ++ getWebGLErrorMessage glE glE.errorCode)),
          [Event.disableCap glE.id DEPTH_TEST, Event.getError glE.id])) := by
  refine ⟨bootstrap_ok env gl herr,
    by simp [bootTrace, countGetErrorQueries, isGetErrorQuery],
    by simp [bootTrace, countGetErrorQueries, isGetErrorQuery], ?_⟩
  intro hdbg
  simp [bootstrapWebGLContext, callAndCheck, checkWebGLError, hdbg, herrE]

/-- Claim C7 witness: the amended bootstrap behavior at concrete
handles (healthy id 1, erroring id 2) in the debug environment. -/
theorem C7_bootstrap_amended_witness :
    ({ id := 1, lost := false, errorCode := 0 } : Ctx).errorCode = NO_ERROR ∧
    ({ id := 2, lost := false, errorCode := 1282 } : Ctx).errorCode ≠ NO_ERROR ∧
    (bootstrapWebGLContext dbgEnv { id := 1, lost := false, errorCode := 0 } =
        (Except.ok (), bootTrace dbgEnv.DEBUG 1) ∧
      countGetErrorQueries (bootTrace true 1) = 1 ∧
      countGetErrorQueries (bootTrace false 1) = 0 ∧
      (dbgEnv.DEBUG = true →
        bootstrapWebGLContext dbgEnv { id := 2, lost := false, errorCode := 1282 } =
          (Except.error
              (GLError.graphicsError
                ("WebGL Error: " ++
                  getWebGLErrorMessage { id := 2, lost := false, errorCode := 1282 } 1282)),
            [Event.disableCap 2 DEPTH_TEST, Event.getError 2]))) :=
  ⟨rfl, by decide,
    C7_bootstrap_amended dbgEnv { id := 1, lost := false, errorCode := 0 }
      { id := 2, lost := false, errorCode := 1282 } rfl (by decide)⟩

/-- Claim C8 counterexample: for the unrecognized code 9999 the
formatter returns the literal string "Unknown error code 9999", not the
claimed "unknown code 9999". -/
theorem C8_unknown_code_counterexample :
    getWebGLErrorMessage { id := 0, lost := false, errorCode := 0 } 9999 =
      "Unknown error code 9999" ∧
    "Unknown error code 9999" ≠ "unknown code 9999" :=
  ⟨rfl, by decide⟩

/-- Claim C8 as amended: the formatter returns the exact symbolic name
for each of the six known error codes, and for every unrecognized code
N the literal string "Unknown error code N". -/
theorem C8_error_messages_amended (gl : Ctx) (status : Nat)
    (h : status ≠ NO_ERROR ∧ status ≠ INVALID_ENUM ∧ status ≠ INVALID_VALUE ∧
      status ≠ INVALID_OPERATION ∧ status ≠ INVALID_FRAMEBUFFER_OPERATION ∧
      status ≠ OUT_OF_MEMORY ∧ status ≠ CONTEXT_LOST_WEBGL) :
    getWebGLErrorMessage gl INVALID_ENUM = "INVALID_ENUM" ∧
    getWebGLErrorMessage gl INVALID_VALUE = "INVALID_VALUE" ∧
    getWebGLErrorMessage gl INVALID_OPERATION = "INVALID_OPERATION" ∧
    getWebGLErrorMessage gl INVALID_FRAMEBUFFER_OPERATION =
      "INVALID_FRAMEBUFFER_OPERATION" ∧
    getWebGLErrorMessage gl OUT_OF_MEMORY = "OUT_OF_MEMORY" ∧
    getWebGLErrorMessage gl CONTEXT_LOST_WEBGL = "CONTEXT_LOST_WEBGL" ∧
    getWebGLErrorMessage gl status = "Unknown error code " ++ toString status := by
  obtain ⟨h0, h1, h2, h3, h4, h5, h6⟩ := h
  refine ⟨rfl, rfl, rfl, rfl, rfl, rfl, ?_⟩
  simp [getWebGLErrorMessage, h0, h1, h2, h3, h4, h5, h6]

/-- Claim C8 witness: the amended formatter behavior at the concrete
unrecognized code 9999. -/
theorem C8_error_messages_amended_witness :
    ((9999 : Nat) ≠ NO_ERROR ∧ (9999 : Nat) ≠ INVALID_ENUM ∧
      (9999 : Nat) ≠ INVALID_VALUE ∧ (9999 : Nat) ≠ INVALID_OPERATION ∧
      (9999 : Nat) ≠ INVALID_FRAMEBUFFER_OPERATION ∧
      (9999 : Nat) ≠ OUT_OF_MEMORY ∧ (9999 : Nat) ≠ CONTEXT_LOST_WEBGL) ∧
    getWebGLErrorMessage { id := 0, lost := false, errorCode := 0 } 9999 =
      "Unknown error code " ++ toString (9999 : Nat) :=
  ⟨by decide,
    (C8_error_messages_amended { id := 0, lost := false, errorCode := 0 } 9999
      (by decide)).2.2.2.2.2.2⟩

/-- Claim C9: `callAndCheck` in non-debug mode is the identity on the
operation (same result, same trace, throws exactly when the operation
throws); in debug mode it runs the operation, immediately queries the
error state, and passes the operation's value through unchanged when
the check passes, throwing the graphics error otherwise. -/
theorem C9_callAndCheck_transparent {α : Type} (gl : Ctx)
    (func : Unit → Except GLError α × List Event) :
    callAndCheck gl false func = func () ∧
    (∀ (v : α) (ev : List Event), func () = (Except.ok v, ev) →
      callAndCheck gl true func =
        ((if gl.errorCode = NO_ERROR then (Except.ok v : Except GLError α)
          else Except.error
            (GLError.graphicsError
              ("WebGL Error: " ++ getWebGLErrorMessage gl gl.errorCode))),
          ev ++ [Event.getError gl.id])) := by
  constructor
  · rcases hfn : func () with ⟨r, ev⟩
    cases r <;> simp [callAndCheck, hfn]
  · intro v ev hfn
    by_cases he : gl.errorCode = NO_ERROR <;>
      simp [callAndCheck, hfn, checkWebGLError, he]

/-- Concrete handle for the `callAndCheck` witness. -/
def c9gl : Ctx := { id := 3, lost := false, errorCode := 0 }

/-- Concrete operation for the `callAndCheck` witness. -/
def c9func : Unit → Except GLError Nat × List Event :=
  fun _ => (Except.ok 42, [Event.disableCap 1 2])

/-- Claim C9 witness: transparency at a concrete handle and operation. -/
theorem C9_callAndCheck_transparent_witness :
    callAndCheck c9gl false c9func = c9func () ∧
    callAndCheck c9gl true c9func =
      (Except.ok 42, [Event.disableCap 1 2] ++ [Event.getError 3]) := by
  obtain ⟨ha, hb⟩ := C9_callAndCheck_transparent c9gl c9func
  refine ⟨ha, ?_⟩
  have hc := hb 42 [Event.disableCap 1 2] rfl
  simpa [c9gl] using hc

/-- An empty registry with the healthy factory and benign cleanup
installed. -/
def emptyFactoryState : GLState :=
  { contexts := [], contextFactory := some freshFactory,
    contextCleanup := some injCleanup }

/-- Claim C3: for distinct versions requested in sequence (with the
installed factory producing healthy, distinct handles), the two calls
cache and return distinct handles; afterwards each repeated call for a
version returns the identical cached handle with the registry state
untouched, performing only the unconditional error check. -/
theorem C3_idempotent_caching (env : Env) (fuel : Nat) (s : GLState)
    (v1 v2 : Nat) (f : FactoryFn)
    (hne : v1 ≠ v2)
    (h1 : ctxLookup s.contexts v1 = none)
    (h2 : ctxLookup s.contexts v2 = none)
    (hf : s.contextFactory = some f)
    (e1 : (f.create v1).errorCode = NO_ERROR) (l1 : (f.create v1).lost = false)
    (e2 : (f.create v2).errorCode = NO_ERROR) (l2 : (f.create v2).lost = false)
    (hdist : f.create v1 ≠ f.create v2) :
    (getContextByVersion env (fuel + 1) s v1).1 = Except.ok (f.create v1) ∧
    (getContextByVersion env (fuel + 1) s v1).2.1 =
      { s with contexts := objSet s.contexts v1 (f.create v1) } ∧
    (getContextByVersion env (fuel + 1)
        { s with contexts := objSet s.contexts v1 (f.create v1) } v2).1 =
      Except.ok (f.create v2) ∧
    (getContextByVersion env (fuel + 1)
        { s with contexts := objSet s.contexts v1 (f.create v1) } v2).2.1 =
      { s with contexts :=
          objSet (objSet s.contexts v1 (f.create v1)) v2 (f.create v2) } ∧
    f.create v1 ≠ f.create v2 ∧
    getContextByVersion env (fuel + 1)
        { s with contexts :=
            objSet (objSet s.contexts v1 (f.create v1)) v2 (f.create v2) } v1 =
      (Except.ok (f.create v1),
        { s with contexts :=
            objSet (objSet s.contexts v1 (f.create v1)) v2 (f.create v2) },
        [Event.getError (f.create v1).id]) ∧
    getContextByVersion env (fuel + 1)
        { s with contexts :=
            objSet (objSet s.contexts v1 (f.create v1)) v2 (f.create v2) } v2 =
      (Except.ok (f.create v2),
        { s with contexts :=
            objSet (objSet s.contexts v1 (f.create v1)) v2 (f.create v2) },
        [Event.getError (f.create v2).id]) := by
  have hm1 := get_miss env fuel s v1 f h1 hf e1 l1
  have hm2 := get_miss env fuel
      { s with contexts := objSet s.contexts v1 (f.create v1) } v2 f
      (by simp [ctxLookup_objSet_ne, Ne.symm hne, h2]) (by simp [hf]) e2 l2
  have hh1 := get_hit env fuel
      { s with contexts :=
          objSet (objSet s.contexts v1 (f.create v1)) v2 (f.create v2) } v1
      (f.create v1) f
      (by simp [ctxLookup_objSet_ne, hne, ctxLookup_objSet_self])
      (by simp [hf]) l1 e1
  have hh2 := get_hit env fuel
      { s with contexts :=
          objSet (objSet s.contexts v1 (f.create v1)) v2 (f.create v2) } v2
      (f.create v2) f
      (by simp [ctxLookup_objSet_self]) (by simp [hf]) l2 e2
  refine ⟨by rw [hm1], by rw [hm1], ?_, ?_, hdist, hh1, hh2⟩
  · rw [hm2]
  · rw [hm2]

/-- Claim C3 witness: the caching scenario at versions 1 and 2 on the
empty registry with the healthy factory installed. -/
theorem C3_idempotent_caching_witness :
    (1 : Nat) ≠ 2 ∧
    ctxLookup emptyFactoryState.contexts 1 = none ∧
    ctxLookup emptyFactoryState.contexts 2 = none ∧
    emptyFactoryState.contextFactory = some freshFactory ∧
    (freshFactory.create 1).errorCode = NO_ERROR ∧
    (freshFactory.create 1).lost = false ∧
    (freshFactory.create 2).errorCode = NO_ERROR ∧
    (freshFactory.create 2).lost = false ∧
    freshFactory.create 1 ≠ freshFactory.create 2 ∧
    (getContextByVersion wEnv 1 emptyFactoryState 1).1 =
      Except.ok (freshFactory.create 1) ∧
    getContextByVersion wEnv 1
        { emptyFactoryState with
            contexts :=
              objSet (objSet emptyFactoryState.contexts 1 (freshFactory.create 1))
                2 (freshFactory.create 2) } 1 =
      (Except.ok (freshFactory.create 1),
        { emptyFactoryState with
            contexts :=
              objSet (objSet emptyFactoryState.contexts 1 (freshFactory.create 1))
                2 (freshFactory.create 2) },
        [Event.getError (freshFactory.create 1).id]) :=
  ⟨by decide, rfl, rfl, rfl, rfl, rfl, rfl, rfl, by decide,
    (C3_idempotent_caching wEnv 0 emptyFactoryState 1 2 freshFactory
        (by decide) rfl rfl rfl rfl rfl rfl rfl (by decide)).1,
    (C3_idempotent_caching wEnv 0 emptyFactoryState 1 2 freshFactory
        (by decide) rfl rfl rfl rfl rfl rfl rfl (by decide)).2.2.2.2.2.1⟩

/-- The prior factory for the factory-swap scenarios. -/
def oldFactory : FactoryFn :=
  { fid := 1, create := fun v => { id := v, lost := false, errorCode := 0 } }

/-- The replacement factory for the factory-swap scenarios. -/
def newFactory : FactoryFn :=
  { fid := 2, create := fun v => { id := 50 + v, lost := false, errorCode := 0 } }

/-- Handle built by the prior factory for version 1. -/
def c4ctx : Ctx := { id := 1, lost := false, errorCode := 0 }

/-- State caching `c4ctx` for version 1 under the prior factory. -/
def c4state : GLState :=
  { contexts := [(1, c4ctx)], contextFactory := some oldFactory,
    contextCleanup := none }

/-- Claim C4 counterexample: in the canonical variant
`setContextFactory` does NOT clear the cached entries — after the swap
the registry still holds the old handle, and `getContextByVersion 1`
returns that prior-factory handle with zero factory invocations, even
though the new factory would have built a different handle. -/
theorem C4_no_invalidation_counterexample :
    (setContextFactory c4state newFactory).contexts = [(1, c4ctx)] ∧
    (getContextByVersion wEnv 2 (setContextFactory c4state newFactory) 1).1 =
      Except.ok c4ctx ∧
    countFactoryCalls
      (getContextByVersion wEnv 2 (setContextFactory c4state newFactory) 1).2.2 = 0 ∧
    c4ctx ≠ newFactory.create 1 :=
  ⟨rfl, rfl, rfl, by decide⟩

/-- Claim C4 as amended: the canonical `setContextFactory` only installs
the new factory and leaves every cached entry in place, so the next
`getContextByVersion v` for a cached healthy `v` returns the handle
built by the prior factory without invoking the new factory; only the
earlier (legacy) variant clears the registry, after which the next call
does invoke the new factory. -/
theorem C4_factory_swap_amended (env : Env) (fuel : Nat) (s : GLState)
    (v : Nat) (c : Ctx) (f2 : FactoryFn)
    (hc : ctxLookup s.contexts v = some c)
    (hlost : c.lost = false) (herr : c.errorCode = NO_ERROR)
    (he2 : (f2.create v).errorCode = NO_ERROR)
    (hl2 : (f2.create v).lost = false) :
    (setContextFactory s f2).contexts = s.contexts ∧
    getContextByVersion env (fuel + 1) (setContextFactory s f2) v =
      (Except.ok c, setContextFactory s f2, [Event.getError c.id]) ∧
    getContextByVersion env (fuel + 1) (Legacy.setContextFactory s f2) v =
      (Except.ok (f2.create v),
        { s with
            contextFactory := some f2,
            contexts := objSet ([] : List (Nat × Ctx)) v (f2.create v) },
        Event.factoryCall f2.fid v ::
          (bootTrace env.DEBUG (f2.create v).id ++
            [Event.getError (f2.create v).id,
              Event.getError (f2.create v).id])) := by
  refine ⟨rfl, ?_, ?_⟩
  · exact get_hit env fuel (setContextFactory s f2) v c f2
      (by simpa [setContextFactory] using hc)
      (by simp [setContextFactory]) hlost herr
  · have hm := get_miss env fuel (Legacy.setContextFactory s f2) v f2
      (by simp [Legacy.setContextFactory, ctxLookup])
      (by simp [Legacy.setContextFactory]) he2 hl2
    simpa [Legacy.setContextFactory] using hm

/-- Claim C4 witness: the amended factory-swap behavior at the concrete
cached state for version 1. -/
theorem C4_factory_swap_amended_witness :
    ctxLookup c4state.contexts 1 = some c4ctx ∧
    c4ctx.lost = false ∧ c4ctx.errorCode = NO_ERROR ∧
    (newFactory.create 1).errorCode = NO_ERROR ∧
    (newFactory.create 1).lost = false ∧
    ((setContextFactory c4state newFactory).contexts = c4state.contexts ∧
      getContextByVersion wEnv 1 (setContextFactory c4state newFactory) 1 =
        (Except.ok c4ctx, setContextFactory c4state newFactory,
          [Event.getError c4ctx.id]) ∧
      getContextByVersion wEnv 1 (Legacy.setContextFactory c4state newFactory) 1 =
        (Except.ok (newFactory.create 1),
          { c4state with
              contextFactory := some newFactory,
              contexts := objSet ([] : List (Nat × Ctx)) 1 (newFactory.create 1) },
          Event.factoryCall newFactory.fid 1 ::
            (bootTrace wEnv.DEBUG (newFactory.create 1).id ++
              [Event.getError (newFactory.create 1).id,
                Event.getError (newFactory.create 1).id]))) :=
  ⟨rfl, rfl, rfl, rfl, rfl,
    C4_factory_swap_amended wEnv 0 c4state 1 c4ctx newFactory rfl rfl rfl rfl rfl⟩

/-- Registry miss followed by immediate loss: when the factory's fresh
handle for the version reports itself lost (with no pending error) and
the installed cleanup does not throw on it, one unfolding of
`getContextByVersion` constructs, detects the loss, disposes, and hands
the result of the recursive call through. -/
theorem get_miss_lost_fst (env : Env) (fuel : Nat) (s : GLState) (v : Nat)
    (f : FactoryFn) (cl : CleanupFn)
    (hnone : ctxLookup s.contexts v = none)
    (hf : s.contextFactory = some f)
    (hcl : s.contextCleanup = some cl)
    (hfe : (f.create v).errorCode = NO_ERROR)
    (hfl : (f.create v).lost = true)
    (hthrow : cl.throwsOn (f.create v) = false) :
    (getContextByVersion env (fuel + 1) s v).1 =
      (getContextByVersion env fuel
        { s with contexts := ctxErase (objSet s.contexts v (f.create v)) v } v).1 := by
  obtain ⟨cs, cf, cc⟩ := s
  simp only [GLState.contexts] at hnone
  simp only [GLState.contextFactory] at hf
  simp only [GLState.contextCleanup] at hcl
  subst hf
  subst hcl
  rcases hR : getContextByVersion env fuel
      { contexts := ctxErase (objSet cs v (f.create v)) v,
        contextFactory := some f, contextCleanup := some cl } v with ⟨r, s4, evR⟩
  simp [getContextByVersion, resolveFactory, hnone, bootstrap_ok env _ hfe,
    checkWebGLError, hfe, hfl, disposeWebGLContext, ctxLookup_objSet_self,
    hthrow, hR]

/-- A factory every handle of which immediately reports itself lost. -/
def alwaysLostFactory : FactoryFn :=
  { fid := 11, create := fun v => { id := 200 + v, lost := true, errorCode := 0 } }

/-- Empty registry with the always-lost factory and the benign cleanup
installed. -/
def alwaysLostState : GLState :=
  { contexts := [], contextFactory := some alwaysLostFactory,
    contextCleanup := some injCleanup }

/-- Divergence of the modelled recursion: the call exhausts every fuel
bound, i.e. the source recursion never returns. -/
def getContextDiverges (env : Env) (s : GLState) (v : Nat) : Prop :=
  ∀ fuel,
    (getContextByVersion env fuel s v).1 = Except.error GLError.fuelExhausted

/-- Claim C2 counterexample: with a factory whose freshly constructed
handles immediately report themselves lost, `getContextByVersion`
recurses forever — the recursion is NOT bounded regardless of what the
factory returns. -/
theorem C2_unbounded_retry_counterexample :
    getContextDiverges wEnv alwaysLostState 1 := by
  intro fuel
  induction fuel with
  | zero => rfl
  | succ fuel ih =>
    have hstep := get_miss_lost_fst wEnv fuel alwaysLostState 1
        alwaysLostFactory injCleanup rfl rfl rfl rfl rfl rfl
    rw [hstep]
    have hstate :
        ({ alwaysLostState with
            contexts :=
              ctxErase
                (objSet alwaysLostState.contexts 1 (alwaysLostFactory.create 1))
                1 } : GLState) = alwaysLostState := rfl
    rw [hstate]
    exact ih

/-- Installing the resolved factory before proceeding does not change
the result: the body of `getContextByVersion` behaves on `s` exactly as
on `s` with the resolved factory written into the factory slot. -/
theorem get_resolveFactory_install (env : Env) (fuel : Nat) (s : GLState)
    (v : Nat) (f : FactoryFn)
    (hf : resolveFactory env s.contextFactory = some f) :
    getContextByVersion env (fuel + 1) s v =
      getContextByVersion env (fuel + 1) { s with contextFactory := some f } v := by
  obtain ⟨cs, cf, cc⟩ := s
  simp only [GLState.contextFactory] at hf
  simp [getContextByVersion, hf]
  simp [resolveFactory]

/-- Cached-lost step with an abstract disposal outcome: when the cached
handle is lost with no pending error and disposal returns normally, the
call's result is the recursive call's result on the disposed state. -/
theorem get_lost_dispose_ok_fst (env : Env) (fuel : Nat) (s : GLState)
    (v : Nat) (c : Ctx) (f : FactoryFn) (s3 : GLState) (evD : List Event)
    (hc : ctxLookup s.contexts v = some c)
    (hf : s.contextFactory = some f)
    (hlost : c.lost = true)
    (herr : c.errorCode = NO_ERROR)
    (hD : disposeWebGLContext env { s with contextFactory := some f } v =
      (Except.ok (), s3, evD)) :
    (getContextByVersion env (fuel + 1) s v).1 =
      (getContextByVersion env fuel s3 v).1 := by
  obtain ⟨cs, cf, cc⟩ := s
  simp only [GLState.contexts] at hc
  simp only [GLState.contextFactory] at hf
  subst hf
  rcases hR : getContextByVersion env fuel s3 v with ⟨r, s4, evR⟩
  simp [getContextByVersion, resolveFactory, hc, hlost, checkWebGLError, herr,
    hD, hR]

/-- Construction path cannot exhaust fuel: when the version is not
cached, the factory is installed, and its fresh handle is not lost, the
call returns or throws without recursing. -/
theorem get_construct_no_FE (env : Env) (fuel : Nat) (s : GLState) (v : Nat)
    (f : FactoryFn)
    (hnone : ctxLookup s.contexts v = none)
    (hf : s.contextFactory = some f)
    (hfl : (f.create v).lost = false) :
    (getContextByVersion env (fuel + 1) s v).1 ≠
      Except.error GLError.fuelExhausted := by
  obtain ⟨cs, cf, cc⟩ := s
  simp only [GLState.contexts] at hnone
  simp only [GLState.contextFactory] at hf
  subst hf
  rcases hB : bootstrapWebGLContext env (f.create v) with ⟨rB, evB⟩
  cases rB with
  | error e =>
    have he := bootstrap_error_kind env (f.create v) e evB hB
    simp [getContextByVersion, resolveFactory, hnone, hB, he]
  | ok u =>
    cases u
    by_cases hce : (f.create v).errorCode = NO_ERROR <;>
      simp [getContextByVersion, resolveFactory, hnone, hB, checkWebGLError,
        hce, hfl]

/-- Cached handle with a pending error: retrieval throws the formatted
graphics error at the first unconditional check (before disposal when
the handle is also lost), leaving the state untouched. -/
theorem get_hit_error (env : Env) (fuel : Nat) (s : GLState) (v : Nat)
    (c : Ctx) (f : FactoryFn)
    (hc : ctxLookup s.contexts v = some c)
    (hf : s.contextFactory = some f)
    (herr : c.errorCode ≠ NO_ERROR) :
    getContextByVersion env (fuel + 1) s v =
      (Except.error
          (GLError.graphicsError
            ("WebGL Error: " ++ getWebGLErrorMessage c c.errorCode)),
        s, [Event.getError c.id]) := by
  obtain ⟨cs, cf, cc⟩ := s
  simp only [GLState.contexts] at hc
  simp only [GLState.contextFactory] at hf
  subst hf
  cases hl : c.lost <;>
    simp [getContextByVersion, resolveFactory, hc, hl, checkWebGLError, herr]

/-- Fuel bound 2 suffices whenever the installed factory's handle for
the version is not lost: at most one dispose-and-retry happens. -/
theorem get_no_FE_with_factory (env : Env) (fuel : Nat) (s : GLState)
    (v : Nat) (f : FactoryFn)
    (hf : s.contextFactory = some f)
    (hfl : (f.create v).lost = false) :
    (getContextByVersion env (fuel + 1 + 1) s v).1 ≠
      Except.error GLError.fuelExhausted := by
  cases hlk : ctxLookup s.contexts v with
  | none => exact get_construct_no_FE env (fuel + 1) s v f hlk hf hfl
  | some c =>
    by_cases hce : c.errorCode = NO_ERROR
    · cases hl : c.lost with
      | false =>
        rw [get_hit env (fuel + 1) s v c f hlk hf hl hce]
        simp
      | true =>
        obtain ⟨cs, cf, cc⟩ := s
        simp only [GLState.contexts] at hlk
        simp only [GLState.contextFactory] at hf
        subst hf
        rcases hD : disposeWebGLContext env
            { contexts := cs, contextFactory := some f,
              contextCleanup := cc } v with ⟨rD, s3, evD⟩
        cases rD with
        | error e =>
          have he := dispose_error_kind env _ v e s3 evD hD
          simp [getContextByVersion, resolveFactory, hlk, hl, checkWebGLError,
            hce, hD, he]
        | ok u =>
          cases u
          have h3f : s3.contextFactory = some f := by
            have hpres := dispose_contextFactory env
              { contexts := cs, contextFactory := some f,
                contextCleanup := cc } v
            rw [hD] at hpres
            simpa using hpres
          have h3n : ctxLookup s3.contexts v = none :=
            dispose_ok_lookup env _ v s3 evD hD
          have hstep := get_lost_dispose_ok_fst env (fuel + 1)
            { contexts := cs, contextFactory := some f, contextCleanup := cc }
            v c f s3 evD hlk rfl hl hce hD
          rw [hstep]
          exact get_construct_no_FE env fuel s3 v f h3n h3f hfl
    · rw [get_hit_error env (fuel + 1) s v c f hlk hf hce]
      simp

/-- Claim C2 as amended: the dispose-and-retry recursion is bounded at
one retry (fuel 2 never exhausts) PROVIDED the resolved factory's
freshly constructed handle for the version is not lost; the claim's
stronger assertion — bounded regardless of what the factory returns,
including a fresh handle that immediately reports itself lost — is
refuted by the divergence counterexample. -/
theorem C2_bounded_retry_amended (env : Env) (fuel : Nat) (s : GLState)
    (v : Nat) (f : FactoryFn)
    (hf : resolveFactory env s.contextFactory = some f)
    (hfl : (f.create v).lost = false) :
    (getContextByVersion env (fuel + 2) s v).1 ≠
      Except.error GLError.fuelExhausted := by
  rw [show fuel + 2 = fuel + 1 + 1 from rfl,
    get_resolveFactory_install env (fuel + 1) s v f hf]
  exact get_no_FE_with_factory env fuel
    { s with contextFactory := some f } v f rfl hfl

/-- Claim C2 witness: the amended bound at the concrete empty registry
with the healthy factory: fuel 2 is not exhausted. -/
theorem C2_bounded_retry_amended_witness :
    resolveFactory wEnv emptyFactoryState.contextFactory = some freshFactory ∧
    (freshFactory.create 1).lost = false ∧
    (getContextByVersion wEnv 2 emptyFactoryState 1).1 ≠
      Except.error GLError.fuelExhausted :=
  ⟨rfl, rfl,
    C2_bounded_retry_amended wEnv 0 emptyFactoryState 1 freshFactory rfl rfl⟩

/-- Lost cached handle whose disposal throws: the cleanup's exception
propagates out of the retrieval. -/
theorem get_lost_dispose_error_fst (env : Env) (fuel : Nat) (s : GLState)
    (v : Nat) (c : Ctx) (f : FactoryFn) (e : GLError) (s3 : GLState)
    (evD : List Event)
    (hc : ctxLookup s.contexts v = some c)
    (hf : s.contextFactory = some f)
    (hlost : c.lost = true)
    (herr : c.errorCode = NO_ERROR)
    (hD : disposeWebGLContext env { s with contextFactory := some f } v =
      (Except.error e, s3, evD)) :
    (getContextByVersion env (fuel + 1) s v).1 = Except.error e := by
  obtain ⟨cs, cf, cc⟩ := s
  simp only [GLState.contexts] at hc
  simp only [GLState.contextFactory] at hf
  subst hf
  simp [getContextByVersion, resolveFactory, hc, hlost, checkWebGLError, herr,
    hD]

/-- Once a factory resolves — injected, or the browser default when the
browser flag is set — no execution path of `getContextByVersion` can
throw the configuration error, at any fuel: every recursive retry runs
with the factory it installed. -/
theorem get_no_configError (env : Env) :
    ∀ (fuel : Nat) (s : GLState) (v : Nat) (m : String),
      resolveFactory env s.contextFactory ≠ none →
      (getContextByVersion env fuel s v).1 ≠
        Except.error (GLError.configError m) := by
  intro fuel
  induction fuel with
  | zero =>
    intro s v m hres
    simp [getContextByVersion]
  | succ fuel ih =>
    intro s v m hres
    rcases hf : resolveFactory env s.contextFactory with _ | f
    · exact absurd hf hres
    rw [get_resolveFactory_install env fuel s v f hf]
    obtain ⟨cs, cf, cc⟩ := s
    cases hlk : ctxLookup cs v with
    | some c =>
      by_cases hce : c.errorCode = NO_ERROR
      · cases hl : c.lost with
        | false =>
          simp [getContextByVersion, resolveFactory, hlk, hl, checkWebGLError,
            hce]
        | true =>
          rcases hD : disposeWebGLContext env
              { contexts := cs, contextFactory := some f,
                contextCleanup := cc } v with ⟨rD, s3, evD⟩
          cases rD with
          | error e =>
            have he := dispose_error_kind env _ v e s3 evD hD
            simp [getContextByVersion, resolveFactory, hlk, hl,
              checkWebGLError, hce, hD, he]
          | ok u =>
            cases u
            have h3f : s3.contextFactory = some f := by
              have hpres := dispose_contextFactory env
                { contexts := cs, contextFactory := some f,
                  contextCleanup := cc } v
              rw [hD] at hpres
              simpa using hpres
            have hr := ih s3 v m (by simp [resolveFactory, h3f])
            rcases hR : getContextByVersion env fuel s3 v with ⟨r, s4, evR⟩
            rw [hR] at hr
            simp only [] at hr
            simp [getContextByVersion, resolveFactory, hlk, hl,
              checkWebGLError, hce, hD, hR]
            simpa using hr
      · cases hl : c.lost <;>
          simp [getContextByVersion, resolveFactory, hlk, hl, checkWebGLError,
            hce]
    | none =>
      rcases hB : bootstrapWebGLContext env (f.create v) with ⟨rB, evB⟩
      cases rB with
      | error e =>
        have he := bootstrap_error_kind env (f.create v) e evB hB
        simp [getContextByVersion, resolveFactory, hlk, hB, he]
      | ok u =>
        cases u
        by_cases hce : (f.create v).errorCode = NO_ERROR
        · cases hfl : (f.create v).lost with
          | false =>
            simp [getContextByVersion, resolveFactory, hlk, hB,
              checkWebGLError, hce, hfl]
          | true =>
            rcases hD : disposeWebGLContext env
                { contexts := objSet cs v (f.create v),
                  contextFactory := some f, contextCleanup := cc } v
              with ⟨rD, s3, evD⟩
            cases rD with
            | error e =>
              have he := dispose_error_kind env _ v e s3 evD hD
              simp [getContextByVersion, resolveFactory, hlk, hB,
                checkWebGLError, hce, hfl, hD, he]
            | ok u2 =>
              cases u2
              have h3f : s3.contextFactory = some f := by
                have hpres := dispose_contextFactory env
                  { contexts := objSet cs v (f.create v),
                    contextFactory := some f, contextCleanup := cc } v
                rw [hD] at hpres
                simpa using hpres
              have hr := ih s3 v m (by simp [resolveFactory, h3f])
              rcases hR : getContextByVersion env fuel s3 v with ⟨r, s4, evR⟩
              rw [hR] at hr
              simp only [] at hr
              simp [getContextByVersion, resolveFactory, hlk, hB,
                checkWebGLError, hce, hfl, hD, hR]
              simpa using hr
        · simp [getContextByVersion, resolveFactory, hlk, hB,
            checkWebGLError, hce]

/-- Claim C5: requesting a context with no factory installed and the
browser flag false throws the configuration error and leaves the whole
state — the registry map included — untouched, with no action
performed; and the factory slot is not the only state consulted before
throwing: on the same state with the browser flag true the call never
produces the configuration error (the browser default is installed
instead). -/
theorem C5_config_error (env : Env) (fuel : Nat) (s : GLState) (v : Nat)
    (hf : s.contextFactory = none) (hb : env.IS_BROWSER = false) :
    getContextByVersion env (fuel + 1) s v =
      (Except.error
          (GLError.configError
            ("Default WebGLRenderingContext factory was not set!")),
        s, []) ∧
    (∀ m,
      (getContextByVersion { env with IS_BROWSER := true } (fuel + 1) s v).1 ≠
        Except.error (GLError.configError m)) := by
  constructor
  · obtain ⟨cs, cf, cc⟩ := s
    simp only [GLState.contextFactory] at hf
    subst hf
    simp [getContextByVersion, resolveFactory, hb]
  · intro m
    apply get_no_configError
    simp [resolveFactory, hf]

/-- A state with no factory and no cleanup installed, caching an
unrelated entry. -/
def noFactoryState : GLState :=
  { contexts := [(3, staleCtx)], contextFactory := none,
    contextCleanup := none }

/-- Claim C5 witness: the configuration error on the concrete
factory-less state outside the browser. -/
theorem C5_config_error_witness :
    noFactoryState.contextFactory = none ∧
    wEnv.IS_BROWSER = false ∧
    (getContextByVersion wEnv 1 noFactoryState 3 =
        (Except.error
            (GLError.configError
              ("Default WebGLRenderingContext factory was not set!")),
          noFactoryState, []) ∧
      (∀ m,
        (getContextByVersion { wEnv with IS_BROWSER := true } 1
              noFactoryState 3).1 ≠
          Except.error (GLError.configError m))) :=
  ⟨rfl, rfl, C5_config_error wEnv 0 noFactoryState 3 rfl rfl⟩

/-- Claim C10: retrieval checks the native error state regardless of the
debug flag.  With debug OFF: a cached context with a pending error code
— lost or not — makes `getContextByVersion` throw the formatted
graphics error with no disposal and no state change; a newly
constructed context with a pending error makes it throw right after
construction-plus-bootstrap, the entry staying cached. -/
theorem C10_unconditional_checks (env : Env) (fuel : Nat) (s : GLState)
    (v : Nat) (c : Ctx) (f : FactoryFn)
    (hdbg : env.DEBUG = false)
    (hf : s.contextFactory = some f) :
    (ctxLookup s.contexts v = some c → c.errorCode ≠ NO_ERROR →
      getContextByVersion env (fuel + 1) s v =
        (Except.error
            (GLError.graphicsError
              ("WebGL Error: " ++ getWebGLErrorMessage c c.errorCode)),
          s, [Event.getError c.id])) ∧
    (ctxLookup s.contexts v = none → (f.create v).errorCode ≠ NO_ERROR →
      getContextByVersion env (fuel + 1) s v =
        (Except.error
            (GLError.graphicsError
              ("WebGL Error: " ++
                getWebGLErrorMessage (f.create v) (f.create v).errorCode)),
          { s with contexts := objSet s.contexts v (f.create v) },
          Event.factoryCall f.fid v ::
            (bootTrace false (f.create v).id ++
              [Event.getError (f.create v).id]))) := by
  constructor
  · intro hc herr
    exact get_hit_error env fuel s v c f hc hf herr
  · intro hn herr
    obtain ⟨cs, cf, cc⟩ := s
    simp only [GLState.contexts] at hn
    simp only [GLState.contextFactory] at hf
    subst hf
    simp [getContextByVersion, resolveFactory, hn,
      bootstrap_nodebug env _ hdbg, checkWebGLError, herr]

/-- Cached handle with a pending error code, and a state caching it. -/
def errCtx : Ctx := { id := 8, lost := false, errorCode := 1282 }

/-- State caching the erroring handle for version 2. -/
def errState : GLState :=
  { contexts := [(2, errCtx)], contextFactory := some freshFactory,
    contextCleanup := none }

/-- Claim C10 witness: with debug off, retrieving the cached erroring
context throws the formatted graphics error. -/
theorem C10_unconditional_checks_witness :
    wEnv.DEBUG = false ∧
    errState.contextFactory = some freshFactory ∧
    ctxLookup errState.contexts 2 = some errCtx ∧
    errCtx.errorCode ≠ NO_ERROR ∧
    getContextByVersion wEnv 1 errState 2 =
      (Except.error
          (GLError.graphicsError
            ("WebGL Error: " ++ getWebGLErrorMessage errCtx errCtx.errorCode)),
        errState, [Event.getError errCtx.id]) :=
  ⟨rfl, rfl, rfl, by decide,
    (C10_unconditional_checks wEnv 0 errState 2 errCtx freshFactory rfl rfl).1
      rfl (by decide)⟩

end WebGLContextManager
